import Mathlib

/-!
Shallow embedding of the Job_Agent pipeline workers
(`apps/worker/src/workers/{scout,fitScore,compliance}.ts` and the Materials
worker) over an explicit persistent-store state.

Modelling conventions:
- The Postgres store is a `Store` record of explicit lists; `INSERT ... ON
  CONFLICT ... DO NOTHING` becomes a membership check on the conflict key
  followed by an append, `UPDATE ... WHERE id = $1` becomes a map over the
  posting list, `RETURNING id` becomes the fresh id drawn from a counter.
- Each external reasoning-service call is modelled by passing the parsed
  JSON response (a record of `Option` fields, mirroring the TypeScript
  interfaces whose fields are all optional) as a parameter to the worker;
  JSON `null` and an absent field both parse to `none`, matching the
  `?? null` / `?? default` coalescing at the call sites.
- BullMQ `queue.add` calls become a returned list of `QueueTask` values.
- JavaScript numbers appearing as scores are modelled as `Int`.
- Timestamps: `Date.getTime()` is milliseconds since epoch (a `Nat`);
  `toISOString().split("T")[0]` truncates to the UTC day, modelled as
  division by 86400000.
-/

/-- Posting status values written by the workers (stored as strings in the
`job_postings.status` column). `Discovered` is the column default applied by
the Scout insert. -/
inductive Status where
  | Discovered
  | Shortlisted
  | Archived
  | Drafting
  | ReadyForReview
deriving DecidableEq, Repr

/-- Free-text artifacts persisted on the posting record by the Materials
worker (`UPDATE job_postings SET notes = ...`, a JSON object with these
three fields). -/
structure Notes where
  coverLetter : Option String
  whyCompany : Option String
  qaAnswers : Option (List (String × String))
deriving DecidableEq, Repr

/-- A row of `job_postings`. `fit_reasoning` and `risks` are persisted as
JSON-serialized string arrays; they are modelled as the arrays themselves. -/
structure Posting where
  id : Nat
  source : String
  sourceJobId : String
  company : String
  title : String
  level : String
  location : Option String
  remoteMode : String
  visaSponsorship : String
  descriptionRaw : String
  descriptionStructured : String
  applyUrl : String
  datePosted : Option String
  status : Status
  fitScore : Option Int
  fitReasoning : List String
  risks : List String
  notes : Option Notes
deriving DecidableEq, Repr

/-- A row of `followups`; `scheduledFor` is the UTC day number of the
`scheduled_for` date column. -/
structure FollowUp where
  jobId : Nat
  followupNumber : Nat
  scheduledFor : Nat
  status : String
deriving DecidableEq, Repr

/-- A row of `resume_versions`. -/
structure ResumeVersion where
  id : Nat
  baseResumeHash : String
  targetRole : String
  tailoredBullets : List String
deriving DecidableEq, Repr

/-- A row of `applications`. -/
structure Application where
  jobId : Nat
  resumeVersionId : Option Nat
  coverLetterId : Option String
  qaAnswersId : Option String
deriving DecidableEq, Repr

/-- The persistent store: the four record types plus a counter supplying
the ids the database generates for `RETURNING id`. -/
structure Store where
  postings : List Posting
  followups : List FollowUp
  resumeVersions : List ResumeVersion
  applications : List Application
  nextId : Nat
deriving DecidableEq, Repr

/-- A task enqueued on one of the named queues, with its payload. -/
inductive QueueTask where
  | scout
  | normalize (jobId : Nat)
  | fitScore (jobId : Nat)
  | materials (jobId : Nat)
  | compliance (jobId : Nat) (resumeVersionId : Option Nat)
      (coverLetter : Option String) (tailoredBullets : Option (List String))
deriving DecidableEq, Repr

/-- The workers' initial `SELECT ... FROM job_postings WHERE id = $1`:
`rows[0]` of the query result. -/
def findPosting (st : Store) (jobId : Nat) : Option Posting :=
  st.postings.find? (fun p => p.id == jobId)

/-- `UPDATE job_postings SET ... WHERE id = $1`: applies `f` to the posting
with the given id, leaving every other row unchanged. -/
def updatePosting (st : Store) (jobId : Nat) (f : Posting → Posting) : Store :=
  { st with postings := st.postings.map (fun p => if p.id == jobId then f p else p) }

/-! ## Compliance worker (`compliance.ts`) -/

/-- One entry of the `flags` array of a compliance response. -/
structure ComplianceFlag where
  excerpt : String
  issue : String
deriving DecidableEq, Repr

/-- The parsed compliance response (`interface ComplianceResult`, all fields
optional). -/
structure ComplianceResult where
  pass : Option Bool
  flags : Option (List ComplianceFlag)
  summary : Option String
deriving DecidableEq, Repr

/-- `INSERT INTO followups ... ON CONFLICT (job_id, followup_number) DO
NOTHING`. -/
def insertFollowup (st : Store) (jobId followupNumber scheduledFor : Nat) : Store :=
  if st.followups.any (fun fu => fu.jobId == jobId && fu.followupNumber == followupNumber)
  then st
  else { st with
         followups := st.followups ++
           [{ jobId := jobId, followupNumber := followupNumber,
              scheduledFor := scheduledFor, status := "pending" }] }

/-- `const passed = result.pass === true && (result.flags ?? []).length === 0`. -/
def compliancePassed (result : ComplianceResult) : Bool :=
  result.pass == some true && (result.flags.getD []).length == 0

/-- `runCompliance` from `compliance.ts`. `today` is `new Date().getTime()`
in milliseconds; the reasoning-service call is modelled by the parsed
`result` parameter. The payload fields beyond `jobId` feed only the prompt
text. Enqueues nothing (Compliance is the last stage). -/
def runCompliance (today : Nat) (jobId : Nat) (result : ComplianceResult)
    (st : Store) : Store :=
  let passed := compliancePassed result
  let newStatus := if passed then Status.ReadyForReview else Status.Drafting
  let st1 := updatePosting st jobId (fun p => { p with status := newStatus })
  if passed then
    let st2 := insertFollowup st1 jobId 1 ((today + 7 * 86400000) / 86400000)
    insertFollowup st2 jobId 2 ((today + 14 * 86400000) / 86400000)
  else st1

/-! ## FitScore worker (`fitScore.ts`) -/

/-- `keywordMatches` sub-object of a fit-score response. -/
structure KeywordMatches where
  mustHave : Option (List String)
  niceToHave : Option (List String)
deriving DecidableEq, Repr

/-- The parsed fit-score response (`interface FitResult`, all fields
optional). -/
structure FitResult where
  fitScore : Option Int
  reasoning : Option (List String)
  risks : Option (List String)
  recommendation : Option String
  keywordMatches : Option KeywordMatches
deriving DecidableEq, Repr

/-- `const FIT_THRESHOLD = 60`. -/
def FIT_THRESHOLD : Int := 60

/-- `runFitScore` from `fitScore.ts`. Returns the updated store and the
tasks added to the materials queue. The clamp is
`Math.max(0, Math.min(100, result.fitScore ?? 0))`. -/
def runFitScore (jobId : Nat) (result : FitResult) (st : Store) :
    Store × List QueueTask :=
  match findPosting st jobId with
  | none => (st, [])
  | some _ =>
    let fitScore := max 0 (min 100 (result.fitScore.getD 0))
    let newStatus := if fitScore ≥ FIT_THRESHOLD then Status.Shortlisted else Status.Archived
    let st1 := updatePosting st jobId (fun p =>
      { p with fitScore := some fitScore,
               fitReasoning := result.reasoning.getD [],
               risks := result.risks.getD [],
               status := newStatus })
    if newStatus == Status.Shortlisted then (st1, [QueueTask.materials jobId])
    else (st1, [])

/-! ## Normalize worker (second half of `scout.ts`) -/

/-- The parsed normalize response (all fields optional strings). -/
structure NormalizeResult where
  normalizedTitle : Option String
  level : Option String
  remoteMode : Option String
  visaSponsorship : Option String
  normalizedLocation : Option String
deriving DecidableEq, Repr

/-- `runNormalize` from `scout.ts`. The `UPDATE ... SET field =
COALESCE($n, field)` pattern keeps the stored value exactly when the
response value is null/absent. Always enqueues one fit-score task. -/
def runNormalize (jobId : Nat) (normalized : NormalizeResult) (st : Store) :
    Store × List QueueTask :=
  match findPosting st jobId with
  | none => (st, [])
  | some _ =>
    let st1 := updatePosting st jobId (fun p =>
      { p with
        title := normalized.normalizedTitle.getD p.title,
        level := normalized.level.getD p.level,
        remoteMode := normalized.remoteMode.getD p.remoteMode,
        visaSponsorship := normalized.visaSponsorship.getD p.visaSponsorship,
        location := match normalized.normalizedLocation with
                    | some l => some l
                    | none => p.location })
    (st1, [QueueTask.fitScore jobId])

/-! ## Materials worker (`runMaterials`) -/

/-- The parsed materials response (`interface GeneratedMaterials`, all
fields optional). `qaAnswers` is the `Record<string, string>` object. -/
structure GeneratedMaterials where
  coverLetter : Option String
  tailoredBullets : Option (List String)
  whyCompany : Option String
  qaAnswers : Option (List (String × String))
deriving DecidableEq, Repr

/-- `runMaterials` from the Materials worker. `baseResumeHash` is the
sha256-prefix hash of the knowledge-base resume text, an external
primitive passed in as a parameter. Returns the updated store and the
tasks added to the compliance queue. -/
def runMaterials (baseResumeHash : String) (jobId : Nat)
    (materials : GeneratedMaterials) (st : Store) : Store × List QueueTask :=
  match findPosting st jobId with
  | none => (st, [])
  | some posting =>
    -- UPDATE job_postings SET status = Drafting WHERE id = $1
    let st1 := updatePosting st jobId (fun p => { p with status := Status.Drafting })
    -- INSERT INTO resume_versions ... RETURNING id (no conflict clause)
    let rvId := st1.nextId
    let rv : ResumeVersion :=
      { id := rvId, baseResumeHash := baseResumeHash,
        targetRole := posting.title,
        tailoredBullets := materials.tailoredBullets.getD [] }
    let st2 := { st1 with
                 resumeVersions := st1.resumeVersions ++ [rv],
                 nextId := st1.nextId + 1 }
    let resumeVersionId : Option Nat := some rvId
    -- cover_letter_id and qa_answers_id placeholders: JS truthiness of the
    -- generated fields ("" is falsy; any present object is truthy)
    let coverLetterId : Option String :=
      match materials.coverLetter with
      | some s => if s.length == 0 then none else some ("cl-" ++ toString jobId)
      | none => none
    let qaAnswersId : Option String :=
      match materials.qaAnswers with
      | some _ => some ("qa-" ++ toString jobId)
      | none => none
    -- INSERT INTO applications ... ON CONFLICT DO NOTHING (unique job_id)
    let app : Application :=
      { jobId := jobId, resumeVersionId := resumeVersionId,
        coverLetterId := coverLetterId, qaAnswersId := qaAnswersId }
    let st3 :=
      if st2.applications.any (fun a => a.jobId == jobId) then st2
      else { st2 with applications := st2.applications ++ [app] }
    -- UPDATE job_postings SET notes = $2 WHERE id = $1
    let st4 := updatePosting st3 jobId (fun p =>
      { p with notes := some { coverLetter := materials.coverLetter,
                               whyCompany := materials.whyCompany,
                               qaAnswers := materials.qaAnswers } })
    (st4, [QueueTask.compliance jobId resumeVersionId materials.coverLetter
             materials.tailoredBullets])

/-! ## Scout worker (`runScout` and its helpers in `scout.ts`) -/

/-- One element of a Greenhouse board response (`interface GreenhouseJob`);
`locationName` is `location?.name` and `updatedAt` is `updated_at ?? null`. -/
structure GreenhouseJob where
  id : Nat
  title : String
  locationName : Option String
  content : String
  absoluteUrl : String
  updatedAt : Option String
deriving DecidableEq, Repr

/-- Whitespace characters matched by the JavaScript regex class `\s`
(ASCII subset; the Unicode space classes do not occur in this data). -/
def isJsWhitespace (c : Char) : Bool :=
  c == ' ' || c == '\t' || c == '\n' || c == '\r' || c == '\x0b' || c == '\x0c'

/-- Replacement of every `/<[^>]+>/` match by a single space, on the
character list: a `<` followed by one or more non-`>` characters and a
closing `>` is replaced; a `<` not followed by such a run is kept. -/
def stripTags (cs : List Char) : List Char :=
  match cs with
  | [] => []
  | c :: rest =>
    if c == '<' then
      match h : rest.dropWhile (fun d => d != '>') with
      | '>' :: rest2 =>
        if (rest.takeWhile (fun d => d != '>')).isEmpty then
          c :: stripTags rest
        else
          ' ' :: stripTags rest2
      | _ => c :: stripTags rest
    else c :: stripTags rest
termination_by cs.length
decreasing_by
  all_goals simp_wf
  all_goals try omega
  have hd : ∀ l : List Char, (l.dropWhile (fun d => d != '>')).length ≤ l.length := by
    intro l
    induction l with
    | nil => simp
    | cons a l ih =>
      simp only [List.dropWhile]
      cases a != '>' <;> simp <;> omega
  have h1 : ('>' :: rest2).length ≤ rest.length := h ▸ hd rest
  simp at h1; omega

/-- Replacement of every `/\s+/` run by a single space (`prevWs` records
whether the previous character belonged to a whitespace run). -/
def collapseWs (prevWs : Bool) : List Char → List Char
  | [] => []
  | c :: rest =>
    if isJsWhitespace c then
      if prevWs then collapseWs true rest else ' ' :: collapseWs true rest
    else c :: collapseWs false rest

/-- Removal of leading and trailing whitespace (`String.prototype.trim`). -/
def trimWs (cs : List Char) : List Char :=
  ((cs.dropWhile isJsWhitespace).reverse.dropWhile isJsWhitespace).reverse

/-- `stripHtml` from `scout.ts`:
`html.replace(/<[^>]+>/g, " ").replace(/\s+/g, " ").trim()`. -/
def stripHtml (html : String) : String :=
  String.mk (trimWs (collapseWs false (stripTags html.toList)))

/-- Whether `pat` occurs at the head of `cs`. -/
def headMatch : List Char → List Char → Bool
  | _, [] => true
  | [], _ :: _ => false
  | c :: cs, p :: ps => c == p && headMatch cs ps

/-- Whether one alternative of the pre-filter regex
`/intern|new[\s-]?grad|entry[\s-]?level|summer 202/i` matches at the head
of the (lowercased) character list. -/
def earlyCareerAt (cs : List Char) : Bool :=
  headMatch cs "intern".toList ||
  (headMatch cs "new".toList &&
    (headMatch (cs.drop 3) "grad".toList ||
      (match cs.drop 3 with
       | d :: rest => (isJsWhitespace d || d == '-') && headMatch rest "grad".toList
       | [] => false))) ||
  (headMatch cs "entry".toList &&
    (headMatch (cs.drop 5) "level".toList ||
      (match cs.drop 5 with
       | d :: rest => (isJsWhitespace d || d == '-') && headMatch rest "level".toList
       | [] => false))) ||
  headMatch cs "summer 202".toList

/-- Search for the pre-filter regex anywhere in the list. -/
def earlyCareerSearch : List Char → Bool
  | [] => false
  | cs@(_ :: rest) => earlyCareerAt cs || earlyCareerSearch rest

/-- The Scout pre-filter
`/intern|new[\s-]?grad|entry[\s-]?level|summer 202/i.test(j.title)`
(the `i` flag is modelled by lowercasing the title; every literal in the
pattern is already lowercase). -/
def earlyCareerTitle (title : String) : Bool :=
  earlyCareerSearch title.toLower.toList

/-- The structured fields extracted by one reasoning-service call in Scout
(`interface ExtractedFields`); `structured` is the serialized remainder of
the response (`JSON.stringify(rest)`), opaque to the pipeline. The three
named fields have already had the `|| "unknown"` defaulting applied, which
the extraction environment below is assumed to perform (it is part of the
external-call wrapper `extractStructuredFields`). -/
structure ExtractedFields where
  level : String
  remoteMode : String
  visaSponsorship : String
  structured : String
deriving DecidableEq, Repr

/-- `INSERT INTO job_postings ... ON CONFLICT (source, source_job_id) DO
NOTHING RETURNING id`: returns the new store and `some id` when a row was
inserted, `none` when the conflict fired. Columns not in the insert list
take their schema defaults (`status = Discovered`, evaluation fields
null). -/
def insertPosting (st : Store) (source sourceJobId company title level : String)
    (location : Option String) (remoteMode visaSponsorship : String)
    (descriptionRaw descriptionStructured applyUrl : String)
    (datePosted : Option String) : Store × Option Nat :=
  if st.postings.any (fun p => p.source == source && p.sourceJobId == sourceJobId)
  then (st, none)
  else
    let p : Posting :=
      { id := st.nextId, source := source, sourceJobId := sourceJobId,
        company := company, title := title, level := level,
        location := location, remoteMode := remoteMode,
        visaSponsorship := visaSponsorship, descriptionRaw := descriptionRaw,
        descriptionStructured := descriptionStructured, applyUrl := applyUrl,
        datePosted := datePosted, status := Status.Discovered,
        fitScore := none, fitReasoning := [], risks := [], notes := none }
    ({ st with postings := st.postings ++ [p], nextId := st.nextId + 1 }, some st.nextId)

/-- The body of Scout's per-posting `try` block for one Greenhouse job:
strip the markup, call the extraction service (`extract`, which may
throw), insert with the `(source, source_job_id)` conflict key (the store
layer may throw, injected through `insertFault`), and report the new row's
id when one was produced. -/
def processGhJob (extract : String → String → Except String ExtractedFields)
    (insertFault : String → Bool) (company : String) (gh : GreenhouseJob)
    (st : Store) : Except String (Store × Option Nat) :=
  let text := stripHtml gh.content
  match extract gh.title text with
  | Except.error e => Except.error e
  | Except.ok fields =>
    if insertFault (toString gh.id) then
      Except.error "insert failed"
    else
      Except.ok (insertPosting st "greenhouse" (toString gh.id) company gh.title
        fields.level gh.locationName fields.remoteMode fields.visaSponsorship
        gh.content fields.structured gh.absoluteUrl gh.updatedAt)

/-- Scout's inner loop over the relevant postings of one source: each
posting is processed in order; a thrown error is caught, logged and
skipped; a new row enqueues one Normalize task and increments the
`discovered` counter. Returns (store, enqueued tasks, discovered). -/
def processGhJobs (extract : String → String → Except String ExtractedFields)
    (insertFault : String → Bool) (company : String) :
    List GreenhouseJob → Store → Store × List QueueTask × Nat
  | [], st => (st, [], 0)
  | gh :: rest, st =>
    match processGhJob extract insertFault company gh st with
    | Except.error _ => processGhJobs extract insertFault company rest st
    | Except.ok (st1, newId) =>
      let r := processGhJobs extract insertFault company rest st1
      match newId with
      | some id => (r.1, QueueTask.normalize id :: r.2.1, r.2.2 + 1)
      | none => r

/-- One configured Greenhouse target (`{ company, slug }`). -/
structure ScoutTarget where
  company : String
  slug : String
deriving DecidableEq, Repr

/-- `GREENHOUSE_TARGETS` from `scout.ts`. -/
def GREENHOUSE_TARGETS : List ScoutTarget :=
  [⟨"Anthropic", "anthropic"⟩, ⟨"OpenAI", "openai"⟩, ⟨"Stripe", "stripe"⟩,
   ⟨"Snowflake", "snowflake"⟩, ⟨"Datadog", "datadoghq"⟩, ⟨"Chime", "chime"⟩,
   ⟨"Netflix", "netflix"⟩, ⟨"NVIDIA", "nvidia"⟩, ⟨"Figma", "figma"⟩,
   ⟨"Notion", "notion"⟩, ⟨"Confluent", "confluent"⟩,
   ⟨"HashiCorp", "hashicorp"⟩]

/-- The external effects Scout depends on: the per-slug board fetch
(`fetchGreenhouseJobs`, which throws on network failure/timeout and
returns `[]` on a non-OK response), the per-posting extraction call, and
the store layer's possible failure of the posting insert (keyed by source
job id). -/
structure ScoutEnv where
  fetch : String → Except String (List GreenhouseJob)
  extract : String → String → Except String ExtractedFields
  insertFault : String → Bool

/-- Scout's outer loop over the configured targets: a fetch failure for
one source is caught and only that source skipped; otherwise its postings
are pre-filtered by title and processed in order. -/
def runScoutTargets (env : ScoutEnv) :
    List ScoutTarget → Store → Store × List QueueTask × Nat
  | [], st => (st, [], 0)
  | t :: rest, st =>
    match env.fetch t.slug with
    | Except.error _ => runScoutTargets env rest st
    | Except.ok jobs =>
      let relevant := jobs.filter (fun j => earlyCareerTitle j.title)
      let r1 := processGhJobs env.extract env.insertFault t.company relevant st
      let r2 := runScoutTargets env rest r1.1
      (r2.1, r1.2.1 ++ r2.2.1, r1.2.2 + r2.2.2)

/-- `runScout` from `scout.ts`: the loop over `GREENHOUSE_TARGETS`. The
returned `Nat` is the final `discovered` counter. -/
def runScout (env : ScoutEnv) (st : Store) : Store × List QueueTask × Nat :=
  runScoutTargets env GREENHOUSE_TARGETS st

/-! ## Sample data shared by the concrete witnesses -/

/-- A concrete posting used by the witnesses. -/
def samplePosting : Posting :=
  { id := 1, source := "greenhouse", sourceJobId := "42", company := "Acme",
    title := "Software Engineering Intern", level := "intern",
    location := some "New York, NY", remoteMode := "hybrid",
    visaSponsorship := "unknown", descriptionRaw := "desc",
    descriptionStructured := "", applyUrl := "https://x", datePosted := none,
    status := Status.Discovered, fitScore := none, fitReasoning := [],
    risks := [], notes := none }

/-- A concrete one-posting store used by the witnesses. -/
def sampleStore : Store :=
  { postings := [samplePosting], followups := [], resumeVersions := [],
    applications := [], nextId := 2 }

/-! ## Helper lemmas -/

/-- `find?` of the update key over the row-update map returns the updated
row, provided the update keeps the id column. -/
theorem find?_map_update (f : Posting → Posting) (j : Nat)
    (hf : ∀ p, (f p).id = p.id) :
    ∀ l : List Posting,
      (l.map (fun p => if p.id == j then f p else p)).find? (fun p => p.id == j)
        = (l.find? (fun p => p.id == j)).map f := by
  intro l
  induction l with
  | nil => rfl
  | cons a l ih =>
    cases hb : a.id == j with
    | true =>
      simp only [List.map_cons, hb, if_true]
      rw [List.find?_cons_of_pos, List.find?_cons_of_pos]
      · rfl
      · exact hb
      · simp [hf, hb]
    | false =>
      simp only [List.map_cons, hb, Bool.false_eq_true, if_false]
      rw [List.find?_cons_of_neg, List.find?_cons_of_neg]
      · exact ih
      · simp [hb]
      · simp [hb]

/-- `findPosting` after `updatePosting` at the same id. -/
theorem findPosting_updatePosting (st : Store) (j : Nat) (f : Posting → Posting)
    (hf : ∀ p, (f p).id = p.id) :
    findPosting (updatePosting st j f) j = (findPosting st j).map f := by
  simpa [findPosting, updatePosting] using find?_map_update f j hf st.postings

/-- `insertFollowup` touches only the followups table. -/
theorem insertFollowup_postings (s : Store) (a b c : Nat) :
    (insertFollowup s a b c).postings = s.postings := by
  simp only [insertFollowup]
  split <;> rfl

/-- `findPosting` is unchanged by `insertFollowup`. -/
theorem findPosting_insertFollowup (s : Store) (a b c j : Nat) :
    findPosting (insertFollowup s a b c) j = findPosting s j := by
  simp [findPosting, insertFollowup_postings]

/-- The locally computed pass boolean, characterized. -/
theorem compliancePassed_iff (r : ComplianceResult) :
    compliancePassed r = true ↔ (r.pass = some true ∧ r.flags.getD [] = []) := by
  simp [compliancePassed, List.length_eq_zero]

/-! ## Claim theorems -/

/-- C1: Compliance pass determination — the outcome is a pass (status
`ReadyForReview`) if and only if the response's pass boolean is `true` and
its flag list is empty; a response with `pass = true` but non-empty flags
yields the failure outcome: status `Drafting` and no FollowUp rows
created. -/
theorem compliance_pass_determination (today jobId : Nat)
    (result : ComplianceResult) (st : Store) (p : Posting)
    (hp : findPosting st jobId = some p) :
    ((findPosting (runCompliance today jobId result st) jobId).map Posting.status
        = some Status.ReadyForReview
      ↔ (result.pass = some true ∧ result.flags.getD [] = [])) ∧
    (result.pass = some true → result.flags.getD [] ≠ [] →
      (findPosting (runCompliance today jobId result st) jobId).map Posting.status
          = some Status.Drafting
        ∧ (runCompliance today jobId result st).followups = st.followups) := by
  cases hpass : compliancePassed result with
  | false =>
    have hnp : ¬(result.pass = some true ∧ result.flags.getD [] = []) := by
      rw [← compliancePassed_iff, hpass]; simp
    have hrc : runCompliance today jobId result st
        = updatePosting st jobId (fun q => { q with status := Status.Drafting }) := by
      simp [runCompliance, hpass]
    constructor
    · rw [hrc, findPosting_updatePosting st jobId
        (fun q => { q with status := Status.Drafting }) (fun q => rfl), hp]
      simpa using hnp
    · intro _ _
      constructor
      · rw [hrc, findPosting_updatePosting st jobId
          (fun q => { q with status := Status.Drafting }) (fun q => rfl), hp]
        rfl
      · rw [hrc]; rfl
  | true =>
    have hv := (compliancePassed_iff result).mp hpass
    have hrc : runCompliance today jobId result st
        = insertFollowup
            (insertFollowup
              (updatePosting st jobId (fun q => { q with status := Status.ReadyForReview }))
              jobId 1 ((today + 7 * 86400000) / 86400000))
            jobId 2 ((today + 14 * 86400000) / 86400000) := by
      simp [runCompliance, hpass]
    constructor
    · rw [hrc, findPosting_insertFollowup, findPosting_insertFollowup,
        findPosting_updatePosting st jobId
          (fun q => { q with status := Status.ReadyForReview }) (fun q => rfl), hp]
      simpa using hv
    · intro _ hflags
      exact absurd hv.2 hflags

/-- Witness for C1: in the concrete one-posting store, a response claiming
`pass = true` but carrying one flag leaves the posting at `Drafting`. -/
theorem compliance_pass_determination_witness :
    (findPosting
        (runCompliance 0 1
          { pass := some true, flags := some [⟨"ex", "issue"⟩], summary := none }
          sampleStore) 1).map Posting.status = some Status.Drafting := by
  have h := compliance_pass_determination 0 1
    { pass := some true, flags := some [⟨"ex", "issue"⟩], summary := none }
    sampleStore samplePosting rfl
  exact (h.2 rfl (by simp)).1

/-- Shape of a resolved FitScore execution: the single atomic update and
the threshold-gated materials task. -/
theorem runFitScore_eq (jobId : Nat) (result : FitResult) (st : Store)
    (p : Posting) (hp : findPosting st jobId = some p) :
    runFitScore jobId result st
      = (updatePosting st jobId (fun q =>
          { q with fitScore := some (max 0 (min 100 (result.fitScore.getD 0))),
                   fitReasoning := result.reasoning.getD [],
                   risks := result.risks.getD [],
                   status := if FIT_THRESHOLD ≤ max 0 (min 100 (result.fitScore.getD 0))
                             then Status.Shortlisted else Status.Archived }),
         if FIT_THRESHOLD ≤ max 0 (min 100 (result.fitScore.getD 0))
         then [QueueTask.materials jobId] else []) := by
  by_cases h : FIT_THRESHOLD ≤ max 0 (min 100 (result.fitScore.getD 0)) <;>
    simp [runFitScore, hp, h]

/-- C2: FitScore threshold branch — when the posting id resolves, a
clamped score of at least 60 sets status `Shortlisted` and enqueues
exactly one Materials task; a clamped score below 60 sets status
`Archived` and enqueues nothing. -/
theorem fitScore_threshold_branch (jobId : Nat) (result : FitResult)
    (st : Store) (p : Posting) (hp : findPosting st jobId = some p) :
    ((60 : Int) ≤ max 0 (min 100 (result.fitScore.getD 0)) →
      (findPosting (runFitScore jobId result st).1 jobId).map Posting.status
          = some Status.Shortlisted
        ∧ (runFitScore jobId result st).2 = [QueueTask.materials jobId]) ∧
    (max 0 (min 100 (result.fitScore.getD 0)) < 60 →
      (findPosting (runFitScore jobId result st).1 jobId).map Posting.status
          = some Status.Archived
        ∧ (runFitScore jobId result st).2 = []) := by
  have heq := runFitScore_eq jobId result st p hp
  have hfind := findPosting_updatePosting st jobId (fun q =>
    { q with fitScore := some (max 0 (min 100 (result.fitScore.getD 0))),
             fitReasoning := result.reasoning.getD [],
             risks := result.risks.getD [],
             status := if FIT_THRESHOLD ≤ max 0 (min 100 (result.fitScore.getD 0))
                       then Status.Shortlisted else Status.Archived })
    (fun q => rfl)
  constructor
  · intro h60
    have h : FIT_THRESHOLD ≤ max 0 (min 100 (result.fitScore.getD 0)) := h60
    simp only [heq]
    rw [hfind, hp]
    simp [h]
  · intro hlt
    have h : ¬ FIT_THRESHOLD ≤ max 0 (min 100 (result.fitScore.getD 0)) :=
      not_le.mpr hlt
    simp only [heq]
    rw [hfind, hp]
    simp [h]

/-- Witness for C2: in the concrete store, a response scoring 60 yields
`Shortlisted` plus one Materials task, and one scoring 59 yields
`Archived` with no task. -/
theorem fitScore_threshold_branch_witness :
    ((findPosting (runFitScore 1
          { fitScore := some 60, reasoning := none, risks := none,
            recommendation := none, keywordMatches := none } sampleStore).1 1).map
        Posting.status = some Status.Shortlisted
      ∧ (runFitScore 1
          { fitScore := some 60, reasoning := none, risks := none,
            recommendation := none, keywordMatches := none } sampleStore).2
        = [QueueTask.materials 1]) ∧
    ((findPosting (runFitScore 1
          { fitScore := some 59, reasoning := none, risks := none,
            recommendation := none, keywordMatches := none } sampleStore).1 1).map
        Posting.status = some Status.Archived
      ∧ (runFitScore 1
          { fitScore := some 59, reasoning := none, risks := none,
            recommendation := none, keywordMatches := none } sampleStore).2 = []) := by
  constructor
  · exact (fitScore_threshold_branch 1
      { fitScore := some 60, reasoning := none, risks := none,
        recommendation := none, keywordMatches := none }
      sampleStore samplePosting rfl).1 (by norm_num)
  · exact (fitScore_threshold_branch 1
      { fitScore := some 59, reasoning := none, risks := none,
        recommendation := none, keywordMatches := none }
      sampleStore samplePosting rfl).2 (by norm_num)

/-- C3: Score clamping — when the response carries a numeric score `v`,
the value persisted and the value compared against the threshold are both
`max 0 (min 100 v)`, which lies in [0, 100]. -/
theorem fitScore_clamping (jobId : Nat) (result : FitResult) (st : Store)
    (p : Posting) (v : Int) (hp : findPosting st jobId = some p)
    (hv : result.fitScore = some v) :
    (findPosting (runFitScore jobId result st).1 jobId).map Posting.fitScore
        = some (some (max 0 (min 100 v)))
      ∧ (findPosting (runFitScore jobId result st).1 jobId).map Posting.status
        = some (if (60 : Int) ≤ max 0 (min 100 v) then Status.Shortlisted
                else Status.Archived)
      ∧ (0 : Int) ≤ max 0 (min 100 v) ∧ max 0 (min 100 v) ≤ 100 := by
  have heq := runFitScore_eq jobId result st p hp
  have hfind := findPosting_updatePosting st jobId (fun q =>
    { q with fitScore := some (max 0 (min 100 (result.fitScore.getD 0))),
             fitReasoning := result.reasoning.getD [],
             risks := result.risks.getD [],
             status := if FIT_THRESHOLD ≤ max 0 (min 100 (result.fitScore.getD 0))
                       then Status.Shortlisted else Status.Archived })
    (fun q => rfl)
  refine ⟨?_, ?_, le_max_left 0 _, max_le (by norm_num) (min_le_left 100 v)⟩ <;>
    · simp only [heq]
      rw [hfind, hp]
      simp [hv, FIT_THRESHOLD]

/-- Witness for C3: a raw score of 150 persists as 100 (and shortlists), a
raw score of -5 persists as 0 (and archives), in the concrete store. -/
theorem fitScore_clamping_witness :
    (findPosting (runFitScore 1
        { fitScore := some 150, reasoning := none, risks := none,
          recommendation := none, keywordMatches := none } sampleStore).1 1).map
      Posting.fitScore = some (some 100)
    ∧ (findPosting (runFitScore 1
        { fitScore := some (-5), reasoning := none, risks := none,
          recommendation := none, keywordMatches := none } sampleStore).1 1).map
      Posting.fitScore = some (some 0) := by
  have h150 := fitScore_clamping 1
    { fitScore := some 150, reasoning := none, risks := none,
      recommendation := none, keywordMatches := none }
    sampleStore samplePosting 150 rfl rfl
  have hm5 := fitScore_clamping 1
    { fitScore := some (-5), reasoning := none, risks := none,
      recommendation := none, keywordMatches := none }
    sampleStore samplePosting (-5) rfl rfl
  exact ⟨h150.1.trans (by norm_num [min_def, max_def]),
         hm5.1.trans (by norm_num [min_def, max_def])⟩

/-- C9: implicit default on a malformed scoring response — when the
response has no numeric `fitScore` field, the persisted score is 0, the
status becomes `Archived`, and no further task is enqueued. -/
theorem fitScore_malformed_default (jobId : Nat) (result : FitResult)
    (st : Store) (p : Posting) (hp : findPosting st jobId = some p)
    (hn : result.fitScore = none) :
    (findPosting (runFitScore jobId result st).1 jobId).map Posting.fitScore
        = some (some 0)
      ∧ (findPosting (runFitScore jobId result st).1 jobId).map Posting.status
        = some Status.Archived
      ∧ (runFitScore jobId result st).2 = [] := by
  have heq := runFitScore_eq jobId result st p hp
  have hfind := findPosting_updatePosting st jobId (fun q =>
    { q with fitScore := some (max 0 (min 100 (result.fitScore.getD 0))),
             fitReasoning := result.reasoning.getD [],
             risks := result.risks.getD [],
             status := if FIT_THRESHOLD ≤ max 0 (min 100 (result.fitScore.getD 0))
                       then Status.Shortlisted else Status.Archived })
    (fun q => rfl)
  refine ⟨?_, ?_, ?_⟩
  · simp only [heq]
    rw [hfind, hp]
    simp [hn, FIT_THRESHOLD]
  · simp only [heq]
    rw [hfind, hp]
    simp [hn, FIT_THRESHOLD]
  · simp only [heq]
    simp [hn, FIT_THRESHOLD]

/-- Witness for C9: in the concrete store, the all-absent response leaves
score 0, status `Archived`, and an empty task list. -/
theorem fitScore_malformed_default_witness :
    (findPosting (runFitScore 1
        { fitScore := none, reasoning := none, risks := none,
          recommendation := none, keywordMatches := none } sampleStore).1 1).map
      Posting.fitScore = some (some 0)
    ∧ (findPosting (runFitScore 1
        { fitScore := none, reasoning := none, risks := none,
          recommendation := none, keywordMatches := none } sampleStore).1 1).map
      Posting.status = some Status.Archived
    ∧ (runFitScore 1
        { fitScore := none, reasoning := none, risks := none,
          recommendation := none, keywordMatches := none } sampleStore).2 = [] :=
  fitScore_malformed_default 1
    { fitScore := none, reasoning := none, risks := none,
      recommendation := none, keywordMatches := none }
    sampleStore samplePosting rfl rfl

/-- C6: Normalize coalesce semantics — for a resolved posting, each of the
five corrected fields takes the response value exactly when the response
supplies one, and keeps the stored value when the response field is
null/absent. -/
theorem normalize_coalesce (jobId : Nat) (normalized : NormalizeResult)
    (st : Store) (p : Posting) (hp : findPosting st jobId = some p) :
    ∃ q, findPosting (runNormalize jobId normalized st).1 jobId = some q
      ∧ (normalized.normalizedTitle = none → q.title = p.title)
      ∧ (∀ v, normalized.normalizedTitle = some v → q.title = v)
      ∧ (normalized.level = none → q.level = p.level)
      ∧ (∀ v, normalized.level = some v → q.level = v)
      ∧ (normalized.remoteMode = none → q.remoteMode = p.remoteMode)
      ∧ (∀ v, normalized.remoteMode = some v → q.remoteMode = v)
      ∧ (normalized.visaSponsorship = none → q.visaSponsorship = p.visaSponsorship)
      ∧ (∀ v, normalized.visaSponsorship = some v → q.visaSponsorship = v)
      ∧ (normalized.normalizedLocation = none → q.location = p.location)
      ∧ (∀ v, normalized.normalizedLocation = some v → q.location = some v) := by
  have hfind := findPosting_updatePosting st jobId (fun q =>
    { q with
      title := normalized.normalizedTitle.getD q.title,
      level := normalized.level.getD q.level,
      remoteMode := normalized.remoteMode.getD q.remoteMode,
      visaSponsorship := normalized.visaSponsorship.getD q.visaSponsorship,
      location := match normalized.normalizedLocation with
                  | some l => some l
                  | none => q.location }) (fun q => rfl)
  refine ⟨{ p with
      title := normalized.normalizedTitle.getD p.title,
      level := normalized.level.getD p.level,
      remoteMode := normalized.remoteMode.getD p.remoteMode,
      visaSponsorship := normalized.visaSponsorship.getD p.visaSponsorship,
      location := match normalized.normalizedLocation with
                  | some l => some l
                  | none => p.location },
    ?_, ?_, ?_, ?_, ?_, ?_, ?_, ?_, ?_, ?_, ?_⟩
  · simp only [runNormalize, hp]
    rw [hfind, hp]
    rfl
  · intro h; simp [h]
  · intro v h; simp [h]
  · intro h; simp [h]
  · intro v h; simp [h]
  · intro h; simp [h]
  · intro v h; simp [h]
  · intro h; simp [h]
  · intro v h; simp [h]
  · intro h; simp [h]
  · intro v h; simp [h]

/-- Witness for C6: a response that corrects the title but omits
`normalizedLocation` leaves the sample posting's stored location
unchanged. -/
theorem normalize_coalesce_witness :
    ∃ q, findPosting (runNormalize 1
        { normalizedTitle := some "Software Engineering Intern",
          level := some "intern", remoteMode := none,
          visaSponsorship := none, normalizedLocation := none }
        sampleStore).1 1 = some q
      ∧ q.location = some "New York, NY" := by
  obtain ⟨q, hq, _, _, _, _, _, _, _, _, hloc, _⟩ := normalize_coalesce 1
    { normalizedTitle := some "Software Engineering Intern",
      level := some "intern", remoteMode := none,
      visaSponsorship := none, normalizedLocation := none }
    sampleStore samplePosting rfl
  exact ⟨q, hq, (hloc rfl).trans rfl⟩

/-- C7: missing-record handling — when the posting id does not resolve,
each of Normalize, FitScore and Materials returns with the store unchanged
and no task enqueued. -/
theorem missing_record_no_op (jobId : Nat) (normalized : NormalizeResult)
    (result : FitResult) (baseResumeHash : String)
    (materials : GeneratedMaterials) (st : Store)
    (h : findPosting st jobId = none) :
    runNormalize jobId normalized st = (st, [])
      ∧ runFitScore jobId result st = (st, [])
      ∧ runMaterials baseResumeHash jobId materials st = (st, []) := by
  refine ⟨?_, ?_, ?_⟩ <;> simp [runNormalize, runFitScore, runMaterials, h]

/-- A store with no postings at all, for the missing-record witness. -/
def emptyStore : Store :=
  { postings := [], followups := [], resumeVersions := [],
    applications := [], nextId := 1 }

/-- Witness for C7: on the empty store, all three posting-id workers are
no-ops for id 7. -/
theorem missing_record_no_op_witness :
    runNormalize 7
        { normalizedTitle := none, level := none, remoteMode := none,
          visaSponsorship := none, normalizedLocation := none }
        emptyStore = (emptyStore, [])
      ∧ runFitScore 7
        { fitScore := some 90, reasoning := none, risks := none,
          recommendation := none, keywordMatches := none }
        emptyStore = (emptyStore, [])
      ∧ runMaterials "hash" 7
        { coverLetter := some "letter", tailoredBullets := none,
          whyCompany := none, qaAnswers := none }
        emptyStore = (emptyStore, []) :=
  missing_record_no_op 7
    { normalizedTitle := none, level := none, remoteMode := none,
      visaSponsorship := none, normalizedLocation := none }
    { fitScore := some 90, reasoning := none, risks := none,
      recommendation := none, keywordMatches := none }
    "hash"
    { coverLetter := some "letter", tailoredBullets := none,
      whyCompany := none, qaAnswers := none }
    emptyStore rfl

/-- The followup conflict check fails on every row of a list that holds no
row for the posting. -/
theorem any_followup_key_false (l : List FollowUp) (j n : Nat)
    (h : ∀ fu ∈ l, fu.jobId ≠ j) :
    l.any (fun fu => fu.jobId == j && fu.followupNumber == n) = false := by
  rw [List.any_eq_false]
  intro fu hm
  simp only [Bool.and_eq_true, beq_iff_eq, not_and]
  intro hj
  exact absurd hj (h fu hm)

/-- A passing Compliance run on a store with no followups for the posting
appends exactly the two scheduled followups. -/
theorem runCompliance_pass_followups (t j : Nat) (r : ComplianceResult)
    (s : Store) (hp : compliancePassed r = true)
    (h : ∀ fu ∈ s.followups, fu.jobId ≠ j) :
    (runCompliance t j r s).followups
      = s.followups ++
        [{ jobId := j, followupNumber := 1,
           scheduledFor := (t + 7 * 86400000) / 86400000, status := "pending" },
         { jobId := j, followupNumber := 2,
           scheduledFor := (t + 14 * 86400000) / 86400000, status := "pending" }] := by
  have ha1 : s.followups.any
      (fun fu => fu.jobId == j && fu.followupNumber == 1) = false :=
    any_followup_key_false s.followups j 1 h
  have ha2 : s.followups.any
      (fun fu => fu.jobId == j && fu.followupNumber == 2) = false :=
    any_followup_key_false s.followups j 2 h
  simp [runCompliance, hp, insertFollowup, updatePosting, List.any_append, ha1, ha2]

/-- A passing Compliance run is a no-op on the followups table when both
followup rows for the posting already exist. -/
theorem runCompliance_pass_followups_noop (t j : Nat) (r : ComplianceResult)
    (s : Store) (hp : compliancePassed r = true)
    (he1 : s.followups.any
      (fun fu => fu.jobId == j && fu.followupNumber == 1) = true)
    (he2 : s.followups.any
      (fun fu => fu.jobId == j && fu.followupNumber == 2) = true) :
    (runCompliance t j r s).followups = s.followups := by
  simp [runCompliance, hp, insertFollowup, updatePosting, he1, he2]

/-- C4: follow-up creation and idempotence — starting from a store with no
followups for the posting, a passing Compliance execution creates followup
rows 1 and 2 scheduled at +7 and +14 days from the pass time, and a second
passing execution for the same posting adds nothing: the store ends with
exactly two followup rows for the posting, never four. -/
theorem compliance_followup_idempotent (today1 today2 jobId : Nat)
    (r1 r2 : ComplianceResult) (st : Store)
    (h1 : compliancePassed r1 = true) (h2 : compliancePassed r2 = true)
    (hfu : ∀ fu ∈ st.followups, fu.jobId ≠ jobId) :
    (runCompliance today2 jobId r2 (runCompliance today1 jobId r1 st)).followups.filter
        (fun fu => fu.jobId == jobId)
      = [{ jobId := jobId, followupNumber := 1,
           scheduledFor := (today1 + 7 * 86400000) / 86400000, status := "pending" },
         { jobId := jobId, followupNumber := 2,
           scheduledFor := (today1 + 14 * 86400000) / 86400000, status := "pending" }]
    ∧ ((runCompliance today2 jobId r2 (runCompliance today1 jobId r1 st)).followups.filter
        (fun fu => fu.jobId == jobId)).length = 2 := by
  have step1 := runCompliance_pass_followups today1 jobId r1 st h1 hfu
  have he1 : (runCompliance today1 jobId r1 st).followups.any
      (fun fu => fu.jobId == jobId && fu.followupNumber == 1) = true := by
    rw [step1]
    simp [List.any_append]
  have he2 : (runCompliance today1 jobId r1 st).followups.any
      (fun fu => fu.jobId == jobId && fu.followupNumber == 2) = true := by
    rw [step1]
    simp [List.any_append]
  have step2 := runCompliance_pass_followups_noop today2 jobId r2
    (runCompliance today1 jobId r1 st) h2 he1 he2
  have hnil : st.followups.filter (fun fu => fu.jobId == jobId) = [] := by
    rw [List.filter_eq_nil_iff]
    intro fu hm
    simp [hfu fu hm]
  constructor
  · rw [step2, step1, List.filter_append, hnil]
    simp
  · rw [step2, step1, List.filter_append, hnil]
    simp

/-- Witness for C4: two passing runs over the concrete store leave exactly
the two followups scheduled from the first run's clock. -/
theorem compliance_followup_idempotent_witness :
    (runCompliance 86400000 1 { pass := some true, flags := some [], summary := none }
        (runCompliance 0 1 { pass := some true, flags := none, summary := none }
          sampleStore)).followups.filter (fun fu => fu.jobId == 1)
      = [{ jobId := 1, followupNumber := 1, scheduledFor := 7, status := "pending" },
         { jobId := 1, followupNumber := 2, scheduledFor := 14, status := "pending" }]
    ∧ ((runCompliance 86400000 1 { pass := some true, flags := some [], summary := none }
        (runCompliance 0 1 { pass := some true, flags := none, summary := none }
          sampleStore)).followups.filter (fun fu => fu.jobId == 1)).length = 2 := by
  have h := compliance_followup_idempotent 0 86400000 1
    { pass := some true, flags := none, summary := none }
    { pass := some true, flags := some [], summary := none }
    sampleStore rfl rfl (by simp [sampleStore])
  simpa using h

/-- `updatePosting` touches only the postings table. -/
theorem updatePosting_applications (s : Store) (j : Nat) (f : Posting → Posting) :
    (updatePosting s j f).applications = s.applications := rfl

/-- `findPosting` reads only the postings table. -/
theorem findPosting_congr (s1 s2 : Store) (j : Nat)
    (h : s1.postings = s2.postings) : findPosting s1 j = findPosting s2 j := by
  simp [findPosting, h]

/-- A resolved Materials run appends exactly one ResumeVersion row, whose
id is the store's next generated id (the insert has no conflict clause). -/
theorem runMaterials_resumeVersions (bh : String) (jobId : Nat)
    (m : GeneratedMaterials) (s : Store) (p : Posting)
    (hp : findPosting s jobId = some p) :
    ∃ rv, (runMaterials bh jobId m s).1.resumeVersions
        = s.resumeVersions ++ [rv] ∧ rv.id = s.nextId := by
  refine ⟨{ id := s.nextId, baseResumeHash := bh, targetRole := p.title,
            tailoredBullets := m.tailoredBullets.getD [] }, ?_, rfl⟩
  simp only [runMaterials, hp]
  split <;> rfl

/-- A resolved Materials run consumes one generated id. -/
theorem runMaterials_nextId (bh : String) (jobId : Nat)
    (m : GeneratedMaterials) (s : Store) (p : Posting)
    (hp : findPosting s jobId = some p) :
    (runMaterials bh jobId m s).1.nextId = s.nextId + 1 := by
  simp only [runMaterials, hp]
  split <;> rfl

/-- The postings table after a resolved Materials run: the status update
followed by the notes update. -/
theorem runMaterials_postings (bh : String) (jobId : Nat)
    (m : GeneratedMaterials) (s : Store) (p : Posting)
    (hp : findPosting s jobId = some p) :
    (runMaterials bh jobId m s).1.postings
      = (updatePosting
          (updatePosting s jobId (fun q => { q with status := Status.Drafting }))
          jobId (fun q =>
            { q with notes := some { coverLetter := m.coverLetter,
                                     whyCompany := m.whyCompany,
                                     qaAnswers := m.qaAnswers } })).postings := by
  simp only [runMaterials, hp]
  split <;> rfl

/-- A posting that resolved before a Materials run still resolves after
it. -/
theorem runMaterials_findPosting (bh : String) (jobId : Nat)
    (m : GeneratedMaterials) (s : Store) (p : Posting)
    (hp : findPosting s jobId = some p) :
    ∃ q, findPosting (runMaterials bh jobId m s).1 jobId = some q := by
  refine ⟨{ p with
      status := Status.Drafting,
      notes := some { coverLetter := m.coverLetter,
                      whyCompany := m.whyCompany,
                      qaAnswers := m.qaAnswers } }, ?_⟩
  rw [findPosting_congr _ _ _ (runMaterials_postings bh jobId m s p hp)]
  rw [findPosting_updatePosting _ jobId (fun q =>
    { q with notes := some { coverLetter := m.coverLetter,
                             whyCompany := m.whyCompany,
                             qaAnswers := m.qaAnswers } }) (fun q => rfl)]
  rw [findPosting_updatePosting _ jobId
    (fun q => { q with status := Status.Drafting }) (fun q => rfl)]
  rw [hp]
  rfl

/-- When no Application row exists for the posting, a resolved Materials
run appends one, referencing the freshly inserted ResumeVersion. -/
theorem runMaterials_applications_new (bh : String) (jobId : Nat)
    (m : GeneratedMaterials) (s : Store) (p : Posting)
    (hp : findPosting s jobId = some p)
    (hnapp : s.applications.any (fun a => a.jobId == jobId) = false) :
    ∃ app, (runMaterials bh jobId m s).1.applications = s.applications ++ [app]
      ∧ app.jobId = jobId ∧ app.resumeVersionId = some s.nextId := by
  refine ⟨{ jobId := jobId, resumeVersionId := some s.nextId,
            coverLetterId := match m.coverLetter with
                             | some c => if c.length == 0 then none
                                         else some ("cl-" ++ toString jobId)
                             | none => none,
            qaAnswersId := match m.qaAnswers with
                           | some _ => some ("qa-" ++ toString jobId)
                           | none => none }, ?_, rfl, rfl⟩
  simp only [runMaterials, hp, updatePosting_applications, hnapp,
    Bool.false_eq_true, if_false]
  rfl

/-- When an Application row for the posting already exists, the
conflict-safe insert leaves the applications table unchanged. -/
theorem runMaterials_applications_existing (bh : String) (jobId : Nat)
    (m : GeneratedMaterials) (s : Store) (p : Posting)
    (hp : findPosting s jobId = some p)
    (hyes : s.applications.any (fun a => a.jobId == jobId) = true) :
    (runMaterials bh jobId m s).1.applications = s.applications := by
  simp only [runMaterials, hp, updatePosting_applications, hyes, if_true]

/-- C10: Materials idempotency gap — executing Materials twice for the
same resolved posting inserts two distinct ResumeVersion rows (ids
`nextId` and `nextId + 1`; the insert has no conflict key), while the
conflict-safe Application insert leaves exactly one Application row for
the posting, still referencing the first execution's ResumeVersion. -/
theorem materials_idempotency_gap (bh1 bh2 : String) (jobId : Nat)
    (m1 m2 : GeneratedMaterials) (st : Store) (p : Posting)
    (hp : findPosting st jobId = some p)
    (happ : ∀ a ∈ st.applications, a.jobId ≠ jobId) :
    ∃ rv1 rv2 app,
      (runMaterials bh2 jobId m2 (runMaterials bh1 jobId m1 st).1).1.resumeVersions
          = st.resumeVersions ++ [rv1, rv2]
        ∧ rv1.id = st.nextId ∧ rv2.id = st.nextId + 1
        ∧ (runMaterials bh2 jobId m2 (runMaterials bh1 jobId m1 st).1).1.resumeVersions.length
          = st.resumeVersions.length + 2
        ∧ (runMaterials bh2 jobId m2 (runMaterials bh1 jobId m1 st).1).1.applications.filter
            (fun a => a.jobId == jobId) = [app]
        ∧ app.resumeVersionId = some st.nextId := by
  have hnapp : st.applications.any (fun a => a.jobId == jobId) = false := by
    rw [List.any_eq_false]
    intro a ha
    simp [happ a ha]
  obtain ⟨rv1, hrv1, hrv1id⟩ := runMaterials_resumeVersions bh1 jobId m1 st p hp
  obtain ⟨app1, happ1, happ1j, happ1rv⟩ :=
    runMaterials_applications_new bh1 jobId m1 st p hp hnapp
  have hnext1 := runMaterials_nextId bh1 jobId m1 st p hp
  obtain ⟨p2, hp2⟩ := runMaterials_findPosting bh1 jobId m1 st p hp
  obtain ⟨rv2, hrv2, hrv2id⟩ :=
    runMaterials_resumeVersions bh2 jobId m2 (runMaterials bh1 jobId m1 st).1 p2 hp2
  have hyes : (runMaterials bh1 jobId m1 st).1.applications.any
      (fun a => a.jobId == jobId) = true := by
    rw [happ1]
    simp [List.any_append, happ1j]
  have happs2 := runMaterials_applications_existing bh2 jobId m2
    (runMaterials bh1 jobId m1 st).1 p2 hp2 hyes
  have hfilnil : st.applications.filter (fun a => a.jobId == jobId) = [] := by
    rw [List.filter_eq_nil_iff]
    intro a ha
    simp [happ a ha]
  refine ⟨rv1, rv2, app1, ?_, hrv1id, hrv2id.trans hnext1, ?_, ?_, happ1rv⟩
  · rw [hrv2, hrv1, List.append_assoc]
    rfl
  · rw [hrv2, hrv1]
    simp
  · rw [happs2, happ1, List.filter_append, hfilnil]
    simp [happ1j]

/-- Witness for C10: two Materials runs on the concrete store leave two
ResumeVersion rows (ids 2 and 3) and one Application row referencing
ResumeVersion 2. -/
theorem materials_idempotency_gap_witness :
    ∃ rv1 rv2 app,
      (runMaterials "hashB" 1
          { coverLetter := some "letter B", tailoredBullets := some ["b2"],
            whyCompany := none, qaAnswers := none }
          (runMaterials "hashA" 1
            { coverLetter := some "letter A", tailoredBullets := some ["b1"],
              whyCompany := none, qaAnswers := none }
            sampleStore).1).1.resumeVersions = [rv1, rv2]
        ∧ rv1.id = 2 ∧ rv2.id = 3
        ∧ (runMaterials "hashB" 1
            { coverLetter := some "letter B", tailoredBullets := some ["b2"],
              whyCompany := none, qaAnswers := none }
            (runMaterials "hashA" 1
              { coverLetter := some "letter A", tailoredBullets := some ["b1"],
                whyCompany := none, qaAnswers := none }
              sampleStore).1).1.resumeVersions.length = 2
        ∧ (runMaterials "hashB" 1
            { coverLetter := some "letter B", tailoredBullets := some ["b2"],
              whyCompany := none, qaAnswers := none }
            (runMaterials "hashA" 1
              { coverLetter := some "letter A", tailoredBullets := some ["b1"],
                whyCompany := none, qaAnswers := none }
              sampleStore).1).1.applications.filter (fun a => a.jobId == 1) = [app]
        ∧ app.resumeVersionId = some 2 := by
  have h := materials_idempotency_gap "hashA" "hashB" 1
    { coverLetter := some "letter A", tailoredBullets := some ["b1"],
      whyCompany := none, qaAnswers := none }
    { coverLetter := some "letter B", tailoredBullets := some ["b2"],
      whyCompany := none, qaAnswers := none }
    sampleStore samplePosting rfl (by simp [sampleStore])
  simpa [sampleStore] using h

/-- C5: Scout discovery dedup — processing the same Greenhouse job twice
over a store that does not yet hold its `(source, sourceId)` key (with the
extraction call succeeding and no store fault) stores exactly one posting
with that key and enqueues exactly one Normalize task, for the id
generated by the first insert; the discovered counter is 1. -/
theorem scout_discovery_dedup
    (extract : String → String → Except String ExtractedFields)
    (insertFault : String → Bool) (company : String) (gh : GreenhouseJob)
    (st : Store) (fields : ExtractedFields)
    (hex : extract gh.title (stripHtml gh.content) = Except.ok fields)
    (hf : insertFault (toString gh.id) = false)
    (hnew : ∀ p ∈ st.postings,
      ¬(p.source = "greenhouse" ∧ p.sourceJobId = toString gh.id)) :
    ((processGhJobs extract insertFault company [gh, gh] st).1.postings.filter
        (fun p => p.source == "greenhouse" && p.sourceJobId == toString gh.id)).length
        = 1
      ∧ (processGhJobs extract insertFault company [gh, gh] st).2.1
        = [QueueTask.normalize st.nextId]
      ∧ (processGhJobs extract insertFault company [gh, gh] st).2.2 = 1 := by
  have hany : st.postings.any
      (fun p => p.source == "greenhouse" && p.sourceJobId == toString gh.id)
      = false := by
    rw [List.any_eq_false]
    intro p hm
    simp only [Bool.and_eq_true, beq_iff_eq, not_and]
    intro h1 h2
    exact hnew p hm ⟨h1, h2⟩
  have hfil : st.postings.filter
      (fun p => p.source == "greenhouse" && p.sourceJobId == toString gh.id)
      = [] := by
    rw [List.filter_eq_nil_iff]
    intro p hm
    simp only [Bool.and_eq_true, beq_iff_eq, not_and]
    intro h1 h2
    exact hnew p hm ⟨h1, h2⟩
  refine ⟨?_, ?_, ?_⟩ <;>
    simp [processGhJobs, processGhJob, hex, hf, insertPosting, hany,
      List.any_append, List.filter_append, hfil]

/-- A concrete Greenhouse job for the Scout witnesses. -/
def sampleGhJob : GreenhouseJob :=
  { id := 42, title := "Software Engineering Intern",
    locationName := some "New York, NY", content := "",
    absoluteUrl := "https://jobs.example/42", updatedAt := none }

/-- A concrete extraction stub that always succeeds. -/
def sampleExtractOk : String → String → Except String ExtractedFields :=
  fun _ _ => Except.ok
    { level := "intern", remoteMode := "remote",
      visaSponsorship := "unknown", structured := "" }

/-- Witness for C5: discovering the sample job twice over the empty store
leaves one stored posting for its key, one Normalize task, and a
discovered count of 1. -/
theorem scout_discovery_dedup_witness :
    ((processGhJobs sampleExtractOk (fun _ => false) "Acme"
        [sampleGhJob, sampleGhJob] emptyStore).1.postings.filter
        (fun p => p.source == "greenhouse" && p.sourceJobId == toString sampleGhJob.id)).length
        = 1
      ∧ (processGhJobs sampleExtractOk (fun _ => false) "Acme"
          [sampleGhJob, sampleGhJob] emptyStore).2.1
        = [QueueTask.normalize 1]
      ∧ (processGhJobs sampleExtractOk (fun _ => false) "Acme"
          [sampleGhJob, sampleGhJob] emptyStore).2.2 = 1 :=
  scout_discovery_dedup sampleExtractOk (fun _ => false) "Acme" sampleGhJob
    emptyStore
    { level := "intern", remoteMode := "remote",
      visaSponsorship := "unknown", structured := "" }
    rfl rfl (by intro p hm; simp [emptyStore] at hm)

/-- C8: Scout failure isolation — a fetch failure for one configured
source makes the whole run behave exactly as if only that source were
absent from the target list (every other source, before or after it, is
still processed), and a per-posting processing failure makes the source's
loop behave exactly as if only that posting were absent; in the model both
loops are total functions, so neither failure fails the Scout task. -/
theorem scout_failure_isolation (env : ScoutEnv) (t : ScoutTarget)
    (e msg : String) (company : String) (gh : GreenhouseJob) (st0 : Store)
    (ghs : List GreenhouseJob)
    (hfetch : env.fetch t.slug = Except.error e)
    (hjob : processGhJob env.extract env.insertFault company gh st0
      = Except.error msg) :
    (∀ (pre rest : List ScoutTarget) (st : Store),
        runScoutTargets env (pre ++ t :: rest) st
          = runScoutTargets env (pre ++ rest) st)
      ∧ processGhJobs env.extract env.insertFault company (gh :: ghs) st0
        = processGhJobs env.extract env.insertFault company ghs st0 := by
  constructor
  · intro pre
    induction pre with
    | nil =>
      intro rest st
      simp [runScoutTargets, hfetch]
    | cons x xs ih =>
      intro rest st
      simp only [List.cons_append, runScoutTargets]
      cases hx : env.fetch x.slug with
      | error _ => exact ih rest st
      | ok jobs => simp [ih]
  · simp [processGhJobs, hjob]

/-- An environment whose fetch and extraction both fail, for the C8
witness. -/
def sampleScoutEnvFail : ScoutEnv :=
  { fetch := fun _ => Except.error "network down",
    extract := fun _ _ => Except.error "bad response",
    insertFault := fun _ => false }

/-- Witness for C8: with the failing environment, dropping the failed
source from the middle of a two-source list does not change the run, and
dropping the failed posting does not change the per-source loop. -/
theorem scout_failure_isolation_witness :
    runScoutTargets sampleScoutEnvFail
        ([{ company := "Acme", slug := "acme" }] ++
          { company := "Bad", slug := "bad" } :: []) sampleStore
      = runScoutTargets sampleScoutEnvFail
        ([{ company := "Acme", slug := "acme" }] ++ []) sampleStore
    ∧ processGhJobs sampleScoutEnvFail.extract sampleScoutEnvFail.insertFault
        "Acme" (sampleGhJob :: []) sampleStore
      = processGhJobs sampleScoutEnvFail.extract sampleScoutEnvFail.insertFault
        "Acme" [] sampleStore := by
  have h := scout_failure_isolation sampleScoutEnvFail
    { company := "Bad", slug := "bad" } "network down" "bad response"
    "Acme" sampleGhJob sampleStore [] rfl rfl
  exact ⟨h.1 [{ company := "Acme", slug := "acme" }] [] sampleStore, h.2⟩
